import Mathlib

set_option maxRecDepth 20000

/-! Shallow embedding of the traycer-lite CLI (src/index.ts).

JS strings are modelled as `List Char`; the regular-expression tests the
program performs are embedded as explicit substring / scanning functions.
All definitions are translated from the TypeScript source. -/

/-- JS whitespace class `\s`, restricted to its ASCII members (space, tab,
line feed, carriage return, vertical tab, form feed); JS additionally
includes some Unicode space characters not used by this program. -/
def jsWhitespace (c : Char) : Bool :=
  c = ' ' || c = '\t' || c = '\n' || c = '\r' || c = Char.ofNat 11 || c = Char.ofNat 12

/-- Lowercasing as `String.prototype.toLowerCase` acts on the ASCII range. -/
def jsToLower (s : List Char) : List Char := s.map Char.toLower

/-- Substring test: `pat` occurs contiguously in `s`; embeds the JS regex
test `/lit/.test(s)` for a literal pattern `lit`. -/
def containsSub (pat : List Char) : List Char → Bool
  | [] => pat.isPrefixOf []
  | c :: cs => pat.isPrefixOf (c :: cs) || containsSub pat cs

/-- Character class `[a-zA-Z_]` of the name-capturing regexes. -/
def isIdentStart (c : Char) : Bool := c.isAlpha || c = '_'

/-- Character class `[a-zA-Z0-9_]` of the name-capturing regexes. -/
def isIdentChar (c : Char) : Bool := c.isAlphanum || c = '_'

/-- Matches `\s+([a-zA-Z_][a-zA-Z0-9_]*)` at the start of `s` and returns the
capture group; `\s+` is greedy, and since no whitespace character is an
identifier character the greedy match is the only candidate. -/
def matchTail (s : List Char) : Option (List Char) :=
  match s with
  | [] => none
  | c :: cs =>
    if jsWhitespace c then
      match cs.dropWhile jsWhitespace with
      | [] => none
      | d :: ds => if isIdentStart d then some (d :: ds.takeWhile isIdentChar) else none
    else none

/-- At one scan position, tries each alternative literal in order followed by
`\s+([a-zA-Z_][a-zA-Z0-9_]*)`, returning the first capture. -/
def tryLitsAt (lits : List (List Char)) (s : List Char) : Option (List Char) :=
  match lits with
  | [] => none
  | l :: ls =>
    match (if l.isPrefixOf s then matchTail (s.drop l.length) else none) with
    | some cap => some cap
    | none => tryLitsAt ls s

/-- Embeds `/(?:lit1|lit2|...)\s+([a-zA-Z_][a-zA-Z0-9_]*)/.exec(s)`: scans
positions left to right and returns the first capture group found. -/
def execCapture (lits : List (List Char)) : List Char → Option (List Char)
  | [] => tryLitsAt lits []
  | c :: cs =>
    match tryLitsAt lits (c :: cs) with
    | some cap => some cap
    | none => execCapture lits cs

/-- Concatenation of a list of strings, JS `join('')`. -/
def concatAll : List (List Char) → List Char
  | [] => []
  | x :: xs => x ++ concatAll xs

/-- JS `join(sep)`. -/
def joinSep (sep : List Char) : List (List Char) → List Char
  | [] => []
  | [x] => x
  | x :: y :: xs => x ++ sep ++ joinSep sep (y :: xs)

/-- JS `String.prototype.trim`: whitespace removed from both ends. -/
def jsTrim (s : List Char) : List Char :=
  ((s.dropWhile jsWhitespace).reverse.dropWhile jsWhitespace).reverse

/-- The artifact types of the classifier (`guessType`'s return type). -/
inductive ArtifactType where
  | function
  | component
  | script
  | api
deriving DecidableEq

/-- The `Flags` interface built by `parseArgs`. -/
structure Flags where
  ai : Bool
  json : Bool
  out : Option (List Char)
  help : Bool
  version : Bool
deriving DecidableEq

/-- The `PlanAndCode` interface: plan steps plus code text. -/
structure PlanAndCode where
  plan : List (List Char)
  code : List Char
deriving DecidableEq

/-- Initial flag record of `parseArgs` (all booleans false, no out path). -/
def initFlags : Flags :=
  { ai := false, json := false, out := none, help := false, version := false }

/-- Guard of the `--out <path>` branch: `argv[i+1] && !argv[i+1].startsWith('--')`;
a JS string is truthy exactly when it is nonempty. -/
def outNextOk : List (List Char) → Bool
  | [] => false
  | nxt :: _ => !nxt.isEmpty && !(("--".data).isPrefixOf nxt)

/-- The scanning loop of `parseArgs`: first component accumulates flags, the
`r` accumulator collects the non-flag tokens (`rest` in the source) in order. -/
def parseLoop : List (List Char) → Flags → List (List Char) → Flags × List (List Char)
  | [], f, r => (f, r)
  | arg :: tl, f, r =>
    if arg = ("--ai".data) then parseLoop tl { f with ai := true } r
    else if arg = ("--json".data) then parseLoop tl { f with json := true } r
    else if arg = ("--help".data) ∨ arg = ("-h".data) then parseLoop tl { f with help := true } r
    else if arg = ("--version".data) ∨ arg = ("-v".data) then parseLoop tl { f with version := true } r
    else if arg = ("--out".data) ∧ outNextOk tl = true then
      match tl with
      | nxt :: tl2 => parseLoop tl2 { f with out := some nxt } r
      | [] => (f, r)
    else if ("--out=".data).isPrefixOf arg then parseLoop tl { f with out := some (arg.drop 6) } r
    else parseLoop tl f (r ++ [arg])

/-- `parseArgs`: runs the scan loop, then joins the non-flag tokens with
single spaces and trims the result (`rest.join(' ').trim()`). -/
def parseArgs (argv : List (List Char)) : Flags × List Char :=
  ((parseLoop argv initFlags []).1,
   jsTrim (joinSep (" ".data) (parseLoop argv initFlags []).2))

/-- Rule 1 of `guessType`: `/function/.test(p) || /(check|compute|calculate|determine|find|prime|factorial|fibonacci|reverse)/.test(p)`. -/
def fnKw (p : List Char) : Bool :=
  containsSub ("function".data) p ||
    (containsSub ("check".data) p || containsSub ("compute".data) p ||
     containsSub ("calculate".data) p || containsSub ("determine".data) p ||
     containsSub ("find".data) p || containsSub ("prime".data) p ||
     containsSub ("factorial".data) p || containsSub ("fibonacci".data) p ||
     containsSub ("reverse".data) p)

/-- Rule 2 of `guessType`: `/(react|component|jsx|tsx)/.test(p)`. -/
def compKw (p : List Char) : Bool :=
  containsSub ("react".data) p || containsSub ("component".data) p ||
    containsSub ("jsx".data) p || containsSub ("tsx".data) p

/-- Rule 3 of `guessType`: `/(endpoint|api|http|express|fetch)/.test(p)`. -/
def apiKw (p : List Char) : Bool :=
  containsSub ("endpoint".data) p || containsSub ("api".data) p ||
    containsSub ("http".data) p || containsSub ("express".data) p ||
    containsSub ("fetch".data) p

/-- Rule 4 of `guessType`: `/(script|cli|command|utility)/.test(p)`. -/
def scriptKw (p : List Char) : Bool :=
  containsSub ("script".data) p || containsSub ("cli".data) p ||
    containsSub ("command".data) p || containsSub ("utility".data) p

/-- `guessType`: ordered keyword tests on the lowercased prompt, first match
wins, defaulting to `function`. -/
def guessType (prompt : List Char) : ArtifactType :=
  let p := jsToLower prompt
  if fnKw p then ArtifactType.function
  else if compKw p then ArtifactType.component
  else if apiKw p then ArtifactType.api
  else if scriptKw p then ArtifactType.script
  else ArtifactType.function

/-- Capitalisation of a non-first word in `toCamelCase`:
`w.charAt(0).toUpperCase() + w.slice(1).toLowerCase()`. -/
def capWord : List Char → List Char
  | [] => []
  | c :: cs => Char.toUpper c :: cs.map Char.toLower

/-- Accumulator-based splitter for `split(/\s+/).filter(Boolean)`: splits on
runs of whitespace and keeps only nonempty words. -/
def splitWordsAux : List Char → List Char → List (List Char)
  | [], acc => if acc.isEmpty then [] else [acc.reverse]
  | c :: cs, acc =>
    if jsWhitespace c then
      if acc.isEmpty then splitWordsAux cs [] else acc.reverse :: splitWordsAux cs []
    else splitWordsAux cs (c :: acc)

/-- JS `split(/\s+/).filter(Boolean)`. -/
def splitWords (s : List Char) : List (List Char) := splitWordsAux s []

/-- `toCamelCase`: replace every character outside `[a-zA-Z0-9 ]` by a space,
split on whitespace, lowercase the first word, capitalise the rest, join. -/
def toCamelCase (input : List Char) : List Char :=
  match splitWords (input.map (fun c => if c.isAlphanum || c = ' ' then c else ' ')) with
  | [] => []
  | w :: ws => concatAll ((w.map Char.toLower) :: ws.map capWord)

/-- The `base` local of `guessName`: `toCamelCase(prompt).slice(0, 24)` with
the falsy-fallback `'MyComponent'` / `'doWork'` when the slice is empty. -/
def camelBase (prompt : List Char) (type : ArtifactType) : List Char :=
  if (toCamelCase prompt).take 24 = [] then
    (if type = ArtifactType.component then ("MyComponent".data) else ("doWork".data))
  else (toCamelCase prompt).take 24

/-- `guessName`: explicit `function <id>` capture, then `called|named <id>`
capture, then keyword overrides on the lowercased prompt, then `base`. -/
def guessName (prompt : List Char) (type : ArtifactType) : List Char :=
  match execCapture [("function".data)] prompt with
  | some id => id
  | none =>
    match execCapture [("called".data), ("named".data)] prompt with
    | some id => id
    | none =>
      let p := jsToLower prompt
      if containsSub ("reverse".data) p then ("reverseString".data)
      else if containsSub ("fibonacci".data) p || containsSub ("fib".data) p then ("fibonacci".data)
      else if containsSub ("factorial".data) p then ("factorial".data)
      else if containsSub ("debounce".data) p then ("debounce".data)
      else if containsSub ("throttle".data) p then ("throttle".data)
      else if containsSub ("prime".data) p then ("isPrime".data)
      else camelBase prompt type

/-- `makePlan`: three fixed steps, one type-specific step, four fixed steps.
The `name` parameter is accepted but unused, as in the source. -/
def makePlan (prompt : List Char) (type : ArtifactType) (_name : List Char) : List (List Char) :=
  [("Restate goal: ".data) ++ prompt,
   ("Identify inputs and outputs.".data),
   ("List edge cases and constraints.".data)]
  ++ (if type = ArtifactType.function then [("Design function signature and return type.".data)] else [])
  ++ (if type = ArtifactType.component then [("Sketch props and state; plan rendering.".data)] else [])
  ++ (if type = ArtifactType.api then [("Define route, method, request/response schema, and errors.".data)] else [])
  ++ (if type = ArtifactType.script then [("Define CLI flags, usage, and I/O.".data)] else [])
  ++ [("Outline algorithm in small steps.".data),
      ("Write code with clear comments.".data),
      ("Add basic tests or examples.".data),
      ("Validate on edge cases.".data)]

/-- Trial-division primality template of `codeTemplateFunction`. -/
def primeTemplate (name : List Char) : List Char :=
  ("export function ".data) ++ name ++
  ("(n: number): boolean \x7b\n  if (!Number.isInteger(n) || n < 2) return false;\n  for (let i = 2; i * i <= n; i++) \x7b\n    if (n % i === 0) return false;\n  \x7d\n  return true;\n\x7d\n".data)

/-- Iterative Fibonacci template of `codeTemplateFunction`. -/
def fibTemplate (name : List Char) : List Char :=
  ("export function ".data) ++ name ++
  ("(n: number): number \x7b\n  if (!Number.isInteger(n) || n < 0) throw new Error(\x27n must be a non-negative integer\x27);\n  if (n <= 1) return n;\n  let a = 0, b = 1;\n  for (let i = 2; i <= n; i++) \x7b\n    const next = a + b;\n    a = b;\n    b = next;\n  \x7d\n  return b;\n\x7d\n".data)

/-- Iterative factorial template of `codeTemplateFunction`. -/
def factorialTemplate (name : List Char) : List Char :=
  ("export function ".data) ++ name ++
  ("(n: number): number \x7b\n  if (!Number.isInteger(n) || n < 0) throw new Error(\x27n must be a non-negative integer\x27);\n  let acc = 1;\n  for (let i = 2; i <= n; i++) acc *= i;\n  return acc;\n\x7d\n".data)

/-- String-reversal template of `codeTemplateFunction`. -/
def reverseTemplate (name : List Char) : List Char :=
  ("export function ".data) ++ name ++
  ("(s: string): string \x7b\n  return Array.from(s).reverse().join(\x27\x27);\n\x7d\n".data)

/-- Debounce template of `codeTemplateFunction`. -/
def debounceTemplate (name : List Char) : List Char :=
  ("export function ".data) ++ name ++
  ("<T extends (...args: any[]) => any>(fn: T, wait: number) \x7b\n  let t: NodeJS.Timeout | null = null;\n  return (...args: Parameters<T>) => \x7b\n    if (t) clearTimeout(t);\n    t = setTimeout(() => fn(...args), wait);\n  \x7d;\n\x7d\n".data)

/-- Fallback stub template of `codeTemplateFunction` (throws at runtime). -/
def notImplementedTemplate (name : List Char) : List Char :=
  ("export function ".data) ++ name ++
  ("(/* params */): any \x7b\n  throw new Error(\x27Not implemented\x27);\n\x7d\n".data)

/-- `codeTemplateFunction`: keyword sub-classification of the lowercased
prompt, first match wins, falling back to the not-implemented stub. -/
def codeTemplateFunction (name prompt : List Char) : List Char :=
  let p := jsToLower prompt
  if containsSub ("prime".data) p then primeTemplate name
  else if containsSub ("fibonacci".data) p || containsSub ("fib".data) p then fibTemplate name
  else if containsSub ("factorial".data) p then factorialTemplate name
  else if containsSub ("reverse".data) p && containsSub ("string".data) p then reverseTemplate name
  else if containsSub ("debounce".data) p then debounceTemplate name
  else notImplementedTemplate name

/-- `codeTemplateComponent`: fixed React template, parameterized by the name
only (the prompt parameter is unused, as in the source). -/
def codeTemplateComponent (name _prompt : List Char) : List Char :=
  ("import React, \x7b useState \x7d from \x27react\x27;\n\nexport function ".data) ++ name ++
  ("() \x7b\n  const [value, setValue] = useState(\x27\x27);\n  return (\n    <div style=\x7b\x7b fontFamily: \x27system-ui\x27, padding: 12 \x7d\x7d>\n      <label>\n        <span>Value:</span>\n        <input value=\x7bvalue\x7d onChange=\x7be => setValue(e.target.value)\x7d />\n      </label>\n      <pre>Current: \x7bvalue\x7d</pre>\n    </div>\n  );\n\x7d\n".data)

/-- `codeTemplateAPI`: fixed HTTP-server template (name and prompt unused). -/
def codeTemplateAPI (_name _prompt : List Char) : List Char :=
  ("import http from \x27node:http\x27;\n\nconst server = http.createServer((req, res) => \x7b\n  if (req.method === \x27GET\x27 && req.url === \x27/health\x27) \x7b\n    res.writeHead(200, \x7b \x27Content-Type\x27: \x27application/json\x27 \x7d);\n    res.end(JSON.stringify(\x7b ok: true \x7d));\n    return;\n  \x7d\n  res.writeHead(404);\n  res.end();\n\x7d);\n\nserver.listen(3000, () => \x7b\n  console.log(\x27API listening on http://localhost:3000\x27);\n\x7d);\n".data)

/-- `codeTemplateScript`: fixed CLI-script template (name and prompt unused). -/
def codeTemplateScript (_name _prompt : List Char) : List Char :=
  ("#!/usr/bin/env node\nconst args = process.argv.slice(2);\nif (args.length === 0) \x7b\n  console.log(\x27Usage: my-cli <text>\x27);\n  process.exit(1);\n\x7d\nconsole.log(\x27You said:\x27, args.join(\x27 \x27));\n".data)

/-- `makeOfflinePlanAndCode`: classify, infer name, build plan, pick template. -/
def makeOfflinePlanAndCode (prompt : List Char) : PlanAndCode :=
  let type := guessType prompt
  let name := guessName prompt type
  { plan := makePlan prompt type name,
    code :=
      match type with
      | ArtifactType.function => codeTemplateFunction name prompt
      | ArtifactType.component => codeTemplateComponent name prompt
      | ArtifactType.api => codeTemplateAPI name prompt
      | ArtifactType.script => codeTemplateScript name prompt }

/-- Observable outcome of one `main` invocation: console lines on both
streams, the process exit code, the file write performed (path and content),
and the number of network requests issued. -/
structure RunResult where
  stdout : List (List Char)
  stderr : List (List Char)
  exitCode : Nat
  fileWrite : Option (List Char × List Char)
  requests : Nat
deriving DecidableEq

/-- `maybeAIPlanAndCode`: with no (or an empty, hence falsy) API key it
returns null immediately, before issuing any request; with a key present the
single fetch-and-parse exchange is abstracted by the oracle `net`, whose
`none` value covers every network, parsing, or shape failure (the source
swallows them all and returns null). The second component counts requests. -/
def maybeAIPlanAndCode (apiKey : Option (List Char)) (net : Option PlanAndCode) :
    Option PlanAndCode × Nat :=
  match apiKey with
  | none => (none, 0)
  | some k => if k.isEmpty then (none, 0) else (net, 1)

/-- The string logged by `printHelp`. -/
def helpText : List Char :=
  ("\nTraycer-Lite — show a planning layer + final TypeScript code\n\nUsage:\n  traycer-lite [options] <prompt>\n\nOptions:\n  --ai            Use Hugging Face (optional) if HUGGINGFACE_API_KEY is set\n  --json          Output raw JSON \x7b plan: string[], code: string \x7d\n  --out <file>    Save the generated code to a file\n  -h, --help      Show help\n  -v, --version   Show version\n\nExamples:\n  traycer-lite \"write a function to reverse a string\"\n  traycer-lite --out reverse.ts \"reverse a string in TypeScript\"\n  traycer-lite --ai \"implement debounce(fn, wait)\"\n".data)

/-- The fixed version string logged for `--version`. -/
def versionLine : List Char := ("traycer-lite v0.1.0".data)

/-- Hexadecimal digit (lowercase) for JSON `\u00XX` escapes. -/
def hexDigit (n : Nat) : Char :=
  if n < 10 then Char.ofNat (48 + n) else Char.ofNat (87 + n)

/-- Escaping of one character by `JSON.stringify`. -/
def jsonEscapeChar (c : Char) : List Char :=
  if c = '"' then ['\\', '"']
  else if c = '\\' then ['\\', '\\']
  else if c = Char.ofNat 8 then ['\\', 'b']
  else if c = '\t' then ['\\', 't']
  else if c = '\n' then ['\\', 'n']
  else if c = Char.ofNat 12 then ['\\', 'f']
  else if c = '\r' then ['\\', 'r']
  else if c.toNat < 32 then
    ['\\', 'u', hexDigit (c.toNat / 4096 % 16), hexDigit (c.toNat / 256 % 16),
     hexDigit (c.toNat / 16 % 16), hexDigit (c.toNat % 16)]
  else [c]

/-- A JSON string literal for `s`. -/
def jsonStr (s : List Char) : List Char :=
  '"' :: concatAll (s.map jsonEscapeChar) ++ ['"']

/-- `JSON.stringify(result, null, 2)` for a `PlanAndCode` value. -/
def stringifyPlanAndCode (pc : PlanAndCode) : List Char :=
  ("\x7b\n  \"plan\": ".data) ++
  (match pc.plan with
   | [] => ("[]".data)
   | s :: ss =>
     ("[\n".data) ++
     joinSep (",\n".data) ((s :: ss).map (fun st => ("    ".data) ++ jsonStr st)) ++
     ("\n  ]".data)) ++
  (",\n  \"code\": ".data) ++ jsonStr pc.code ++ ("\n\x7d".data)

/-- The numbered plan lines of the human-readable rendering. -/
def renderSteps : Nat → List (List Char) → List (List Char)
  | _, [] => []
  | i, s :: ss => ((Nat.repr (i + 1)).data ++ (". ".data) ++ s) :: renderSteps (i + 1) ss

/-- `main` after argument parsing, as a pure function of the parsed flags and
prompt, the environment API key, the network oracle, and whether the output
path already exists. Path resolution against the working directory is not
modelled: the file write records the flag-supplied path. An empty `--out`
path is falsy in JS, so no file is written for it. -/
def mainCore (flags : Flags) (prompt : List Char) (apiKey : Option (List Char))
    (net : Option PlanAndCode) (outExists : Bool) : RunResult :=
  if flags.version then
    { stdout := [versionLine], stderr := [], exitCode := 0, fileWrite := none, requests := 0 }
  else if flags.help || prompt.isEmpty then
    { stdout := [helpText], stderr := [], exitCode := if prompt.isEmpty then 1 else 0,
      fileWrite := none, requests := 0 }
  else
    let ar := if flags.ai then maybeAIPlanAndCode apiKey net else (none, 0)
    let result :=
      match ar.1 with
      | some r => r
      | none => makeOfflinePlanAndCode prompt
    let outLines :=
      if flags.json then [stringifyPlanAndCode result]
      else ("Planning Layer".data) :: renderSteps 0 result.plan ++ [("\nFinal Code".data), result.code]
    match flags.out with
    | some p =>
      if p.isEmpty then
        { stdout := outLines, stderr := [], exitCode := 0, fileWrite := none, requests := ar.2 }
      else
        { stdout := outLines ++ [("Saved to ".data) ++ p],
          stderr := if outExists then [("File already exists: ".data) ++ p ++ (" — overwriting.".data)] else [],
          exitCode := 0, fileWrite := some (p, result.code), requests := ar.2 }
    | none => { stdout := outLines, stderr := [], exitCode := 0, fileWrite := none, requests := ar.2 }

/-- `main`: parse the argument list, then run `mainCore`. -/
def mainRun (argv : List (List Char)) (apiKey : Option (List Char))
    (net : Option PlanAndCode) (outExists : Bool) : RunResult :=
  mainCore (parseArgs argv).1 (parseArgs argv).2 apiKey net outExists

/-! Helper lemmas shared by the claim theorems. -/

/-- Substring occurrence is preserved by prepending text on the left. -/
theorem containsSub_append_left (pat l₁ l₂ : List Char)
    (h : containsSub pat l₂ = true) : containsSub pat (l₁ ++ l₂) = true := by
  induction l₁ with
  | nil => simpa using h
  | cons c cs ih =>
    simp only [List.cons_append, containsSub, Bool.or_eq_true]
    exact Or.inr ih

/-- A pattern fixed by lowercasing stays a prefix after lowercasing the text. -/
theorem isPrefixOf_map_lower (pat : List Char)
    (hp : pat.map Char.toLower = pat) :
    ∀ s : List Char, pat.isPrefixOf s = true → pat.isPrefixOf (jsToLower s) = true := by
  induction pat with
  | nil => intro s _; cases s <;> rfl
  | cons a as ih =>
    intro s h
    cases s with
    | nil => simp [List.isPrefixOf] at h
    | cons b bs =>
      simp only [List.map_cons, List.cons.injEq] at hp
      simp only [List.isPrefixOf, Bool.and_eq_true, beq_iff_eq] at h
      have hb : Char.toLower b = a := by rw [← h.1, hp.1]
      simp only [jsToLower, List.map_cons, List.isPrefixOf, Bool.and_eq_true, beq_iff_eq]
      exact ⟨hb.symm, by simpa [jsToLower] using ih hp.2 bs h.2⟩

/-- A pattern fixed by lowercasing that occurs in the text also occurs in the
lowercased text. -/
theorem containsSub_map_lower (pat : List Char)
    (hp : pat.map Char.toLower = pat) :
    ∀ s : List Char, containsSub pat s = true → containsSub pat (jsToLower s) = true := by
  intro s
  induction s with
  | nil =>
    intro h; simpa [jsToLower] using h
  | cons c cs ih =>
    intro h
    simp only [containsSub, Bool.or_eq_true] at h
    rcases h with h | h
    · have := isPrefixOf_map_lower pat hp (c :: cs) h
      simp only [jsToLower, List.map_cons] at this ⊢
      simp only [containsSub, Bool.or_eq_true]
      exact Or.inl this
    · simp only [jsToLower, List.map_cons, containsSub, Bool.or_eq_true]
      exact Or.inr (ih h)

/-- A list is a Boolean prefix of itself followed by anything. -/
theorem isPrefixOf_append_self (l t : List Char) : l.isPrefixOf (l ++ t) = true := by
  induction l with
  | nil => cases t <;> rfl
  | cons a as ih => simp [List.isPrefixOf, ih]

/-- No token of the form `--out=<v>` equals a token shorter than six
characters or one whose first six characters differ from `--out=`. -/
theorem outEqForm_ne (v w : List Char)
    (hw : ¬(w.take 6 = ("--out=".data) ∧ 6 ≤ w.length)) :
    ("--out=".data) ++ v ≠ w := by
  intro h
  apply hw
  constructor
  · rw [← h]; rfl
  · rw [← h]
    show 6 ≤ ('-' :: '-' :: 'o' :: 'u' :: 't' :: '=' :: v).length
    simp [List.length_cons]

/-! Claim theorems. -/

/-- Claim C1 (code-bug evidence): for the prompt `write a function to check
prime numbers` the offline path produces the expected 8-step plan headed by
the restated goal, but the capture regex `/function\s+([a-zA-Z_][a-zA-Z0-9_]*)/`
matches the phrase `function to` and names the exported function `to`, so the
generated code is the trial-division template for the name `to`, not for the
name `isPrime` documented by the README and the spec. -/
theorem claim_C1_bug_eval :
    guessName (("write a function to check prime numbers".data)) ArtifactType.function = ("to".data)
  ∧ (makeOfflinePlanAndCode (("write a function to check prime numbers".data))).code
      = primeTemplate ("to".data)
  ∧ (makeOfflinePlanAndCode (("write a function to check prime numbers".data))).code
      ≠ primeTemplate ("isPrime".data)
  ∧ (makeOfflinePlanAndCode (("write a function to check prime numbers".data))).plan.length = 8
  ∧ (makeOfflinePlanAndCode (("write a function to check prime numbers".data))).plan.head?
      = some ("Restate goal: write a function to check prime numbers".data) := by
  refine ⟨by decide, by decide, by decide, by decide, by decide⟩

/-- Claim C2: the classifier is total with first-match-wins priority: the
function-keyword rule is tested before the component, api, and script rules,
the default is `function`, and in particular every prompt containing both
`function` and `react` classifies as `function`. -/
theorem claim_C2_classifier_priority (p : List Char) :
    (fnKw (jsToLower p) = true → guessType p = ArtifactType.function)
  ∧ (fnKw (jsToLower p) = false → compKw (jsToLower p) = true →
       guessType p = ArtifactType.component)
  ∧ (fnKw (jsToLower p) = false → compKw (jsToLower p) = false →
       apiKw (jsToLower p) = true → guessType p = ArtifactType.api)
  ∧ (fnKw (jsToLower p) = false → compKw (jsToLower p) = false →
       apiKw (jsToLower p) = false → scriptKw (jsToLower p) = true →
       guessType p = ArtifactType.script)
  ∧ (fnKw (jsToLower p) = false → compKw (jsToLower p) = false →
       apiKw (jsToLower p) = false → scriptKw (jsToLower p) = false →
       guessType p = ArtifactType.function)
  ∧ (containsSub ("function".data) p = true → containsSub ("react".data) p = true →
       guessType p = ArtifactType.function) := by
  refine ⟨?_, ?_, ?_, ?_, ?_, ?_⟩
  · intro h; simp [guessType, h]
  · intro h1 h2; simp [guessType, h1, h2]
  · intro h1 h2 h3; simp [guessType, h1, h2, h3]
  · intro h1 h2 h3 h4; simp [guessType, h1, h2, h3, h4]
  · intro h1 h2 h3 h4; simp [guessType, h1, h2, h3, h4]
  · intro hf _
    have hl := containsSub_map_lower ("function".data) (by decide) p hf
    have : fnKw (jsToLower p) = true := by simp [fnKw, hl]
    simp [guessType, this]

/-- Claim C2 witness: concrete instances of the priority rules. -/
theorem claim_C2_witness :
    guessType ("function react".data) = ArtifactType.function
  ∧ guessType ("react widget".data) = ArtifactType.component := by
  exact ⟨(claim_C2_classifier_priority ("function react".data)).2.2.2.2.2 (by decide) (by decide),
         (claim_C2_classifier_priority ("react widget".data)).2.1 (by decide) (by decide)⟩

/-- Claim C4: for every prompt, artifact type, and name, the plan is exactly
the 8 listed steps: steps 1 to 3 and 5 to 8 are fixed verbatim (step 1
interpolating the prompt) and step 4 is the single type-specific step. -/
theorem claim_C4_plan_shape (p : List Char) (t : ArtifactType) (n : List Char) :
    makePlan p t n =
      [("Restate goal: ".data) ++ p,
       ("Identify inputs and outputs.".data),
       ("List edge cases and constraints.".data),
       (match t with
        | ArtifactType.function => ("Design function signature and return type.".data)
        | ArtifactType.component => ("Sketch props and state; plan rendering.".data)
        | ArtifactType.api => ("Define route, method, request/response schema, and errors.".data)
        | ArtifactType.script => ("Define CLI flags, usage, and I/O.".data)),
       ("Outline algorithm in small steps.".data),
       ("Write code with clear comments.".data),
       ("Add basic tests or examples.".data),
       ("Validate on edge cases.".data)]
  ∧ (makePlan p t n).length = 8 := by
  cases t <;> exact ⟨rfl, rfl⟩

/-- Claim C10: the offline generation path is deterministic: its result is a
function of the prompt string alone, and a run whose ai flag is off is
unaffected by the environment key and the network oracle. -/
theorem claim_C10_offline_deterministic :
    (∀ p₁ p₂ : List Char, p₁ = p₂ → makeOfflinePlanAndCode p₁ = makeOfflinePlanAndCode p₂)
  ∧ (∀ (flags : Flags) (prompt : List Char) (k₁ k₂ : Option (List Char))
       (n₁ n₂ : Option PlanAndCode) (fe : Bool), flags.ai = false →
         mainCore flags prompt k₁ n₁ fe = mainCore flags prompt k₂ n₂ fe) := by
  constructor
  · intro p₁ p₂ h; rw [h]
  · intro flags prompt k₁ k₂ n₁ n₂ fe h
    simp [mainCore, h]

/-- Claim C10 witness: determinism at a concrete prompt and a concrete pair
of differing oracles. -/
theorem claim_C10_witness :
    makeOfflinePlanAndCode ("reverse a string".data) = makeOfflinePlanAndCode ("reverse a string".data)
  ∧ mainCore initFlags ("hi".data) (some ("key".data)) (some { plan := [], code := [] }) false
      = mainCore initFlags ("hi".data) none none false := by
  exact ⟨claim_C10_offline_deterministic.1 ("reverse a string".data) ("reverse a string".data) rfl,
         claim_C10_offline_deterministic.2 initFlags ("hi".data) (some ("key".data)) none
           (some { plan := [], code := [] }) none false rfl⟩

/-- Claim C3: the explicit `function <id>` capture always wins; when it fails,
the `called|named <id>` capture wins; when both fail, the keyword overrides
apply in the order reverse, fibonacci or fib, factorial, debounce, throttle,
prime, and only when all of them fail does the camelCase fallback apply. -/
theorem claim_C3_name_precedence (prompt : List Char) (type : ArtifactType) :
    (∀ id, execCapture [("function".data)] prompt = some id → guessName prompt type = id)
  ∧ (∀ id, execCapture [("function".data)] prompt = none →
       execCapture [("called".data), ("named".data)] prompt = some id →
       guessName prompt type = id)
  ∧ (execCapture [("function".data)] prompt = none →
     execCapture [("called".data), ("named".data)] prompt = none →
     containsSub ("reverse".data) (jsToLower prompt) = true →
     guessName prompt type = ("reverseString".data))
  ∧ (execCapture [("function".data)] prompt = none →
     execCapture [("called".data), ("named".data)] prompt = none →
     containsSub ("reverse".data) (jsToLower prompt) = false →
     (containsSub ("fibonacci".data) (jsToLower prompt) || containsSub ("fib".data) (jsToLower prompt)) = true →
     guessName prompt type = ("fibonacci".data))
  ∧ (execCapture [("function".data)] prompt = none →
     execCapture [("called".data), ("named".data)] prompt = none →
     containsSub ("reverse".data) (jsToLower prompt) = false →
     (containsSub ("fibonacci".data) (jsToLower prompt) || containsSub ("fib".data) (jsToLower prompt)) = false →
     containsSub ("factorial".data) (jsToLower prompt) = true →
     guessName prompt type = ("factorial".data))
  ∧ (execCapture [("function".data)] prompt = none →
     execCapture [("called".data), ("named".data)] prompt = none →
     containsSub ("reverse".data) (jsToLower prompt) = false →
     (containsSub ("fibonacci".data) (jsToLower prompt) || containsSub ("fib".data) (jsToLower prompt)) = false →
     containsSub ("factorial".data) (jsToLower prompt) = false →
     containsSub ("debounce".data) (jsToLower prompt) = true →
     guessName prompt type = ("debounce".data))
  ∧ (execCapture [("function".data)] prompt = none →
     execCapture [("called".data), ("named".data)] prompt = none →
     containsSub ("reverse".data) (jsToLower prompt) = false →
     (containsSub ("fibonacci".data) (jsToLower prompt) || containsSub ("fib".data) (jsToLower prompt)) = false →
     containsSub ("factorial".data) (jsToLower prompt) = false →
     containsSub ("debounce".data) (jsToLower prompt) = false →
     containsSub ("throttle".data) (jsToLower prompt) = true →
     guessName prompt type = ("throttle".data))
  ∧ (execCapture [("function".data)] prompt = none →
     execCapture [("called".data), ("named".data)] prompt = none →
     containsSub ("reverse".data) (jsToLower prompt) = false →
     (containsSub ("fibonacci".data) (jsToLower prompt) || containsSub ("fib".data) (jsToLower prompt)) = false →
     containsSub ("factorial".data) (jsToLower prompt) = false →
     containsSub ("debounce".data) (jsToLower prompt) = false →
     containsSub ("throttle".data) (jsToLower prompt) = false →
     containsSub ("prime".data) (jsToLower prompt) = true →
     guessName prompt type = ("isPrime".data))
  ∧ (execCapture [("function".data)] prompt = none →
     execCapture [("called".data), ("named".data)] prompt = none →
     containsSub ("reverse".data) (jsToLower prompt) = false →
     (containsSub ("fibonacci".data) (jsToLower prompt) || containsSub ("fib".data) (jsToLower prompt)) = false →
     containsSub ("factorial".data) (jsToLower prompt) = false →
     containsSub ("debounce".data) (jsToLower prompt) = false →
     containsSub ("throttle".data) (jsToLower prompt) = false →
     containsSub ("prime".data) (jsToLower prompt) = false →
     guessName prompt type = camelBase prompt type) := by
  refine ⟨?_, ?_, ?_, ?_, ?_, ?_, ?_, ?_, ?_⟩
  · intro id h; simp [guessName, h]
  · intro id h1 h2; simp [guessName, h1, h2]
  · intro h1 h2 h3; simp [guessName, h1, h2, h3]
  · intro h1 h2 h3 h4; simp [guessName, h1, h2, h3, h4]
  · intro h1 h2 h3 h4 h5; simp [guessName, h1, h2, h3, h4, h5]
  · intro h1 h2 h3 h4 h5 h6; simp [guessName, h1, h2, h3, h4, h5, h6]
  · intro h1 h2 h3 h4 h5 h6 h7; simp [guessName, h1, h2, h3, h4, h5, h6, h7]
  · intro h1 h2 h3 h4 h5 h6 h7 h8; simp [guessName, h1, h2, h3, h4, h5, h6, h7, h8]
  · intro h1 h2 h3 h4 h5 h6 h7 h8; simp [guessName, h1, h2, h3, h4, h5, h6, h7, h8]

/-- Claim C3 witness: an explicit `function foo` beats the reverse keyword, a
`called`-pattern is used when the `function`-pattern fails, and the keyword
override fires when both patterns fail. -/
theorem claim_C3_witness :
    guessName ("function foo please reverse".data) ArtifactType.function = ("foo".data)
  ∧ guessName ("helper called bar reverse".data) ArtifactType.function = ("bar".data)
  ∧ guessName ("make it reverse".data) ArtifactType.function = ("reverseString".data) := by
  exact ⟨(claim_C3_name_precedence ("function foo please reverse".data) ArtifactType.function).1
           ("foo".data) (by decide),
         (claim_C3_name_precedence ("helper called bar reverse".data) ArtifactType.function).2.1
           ("bar".data) (by decide) (by decide),
         (claim_C3_name_precedence ("make it reverse".data) ArtifactType.function).2.2.1
           (by decide) (by decide) (by decide)⟩

/-- Claim C5: the function template sub-classifier tests the lowercased
prompt in the order prime, fibonacci or fib, factorial, reverse-and-string
(both substrings required), debounce, first match winning, and falls back to
the not-implemented stub, which throws `Not implemented` at runtime. -/
theorem claim_C5_template_priority (name prompt : List Char) :
    (containsSub ("prime".data) (jsToLower prompt) = true →
       codeTemplateFunction name prompt = primeTemplate name)
  ∧ (containsSub ("prime".data) (jsToLower prompt) = false →
     (containsSub ("fibonacci".data) (jsToLower prompt) || containsSub ("fib".data) (jsToLower prompt)) = true →
       codeTemplateFunction name prompt = fibTemplate name)
  ∧ (containsSub ("prime".data) (jsToLower prompt) = false →
     (containsSub ("fibonacci".data) (jsToLower prompt) || containsSub ("fib".data) (jsToLower prompt)) = false →
     containsSub ("factorial".data) (jsToLower prompt) = true →
       codeTemplateFunction name prompt = factorialTemplate name)
  ∧ (containsSub ("prime".data) (jsToLower prompt) = false →
     (containsSub ("fibonacci".data) (jsToLower prompt) || containsSub ("fib".data) (jsToLower prompt)) = false →
     containsSub ("factorial".data) (jsToLower prompt) = false →
     containsSub ("reverse".data) (jsToLower prompt) = true →
     containsSub ("string".data) (jsToLower prompt) = true →
       codeTemplateFunction name prompt = reverseTemplate name)
  ∧ (containsSub ("prime".data) (jsToLower prompt) = false →
     (containsSub ("fibonacci".data) (jsToLower prompt) || containsSub ("fib".data) (jsToLower prompt)) = false →
     containsSub ("factorial".data) (jsToLower prompt) = false →
     (containsSub ("reverse".data) (jsToLower prompt) && containsSub ("string".data) (jsToLower prompt)) = false →
     containsSub ("debounce".data) (jsToLower prompt) = true →
       codeTemplateFunction name prompt = debounceTemplate name)
  ∧ (containsSub ("prime".data) (jsToLower prompt) = false →
     (containsSub ("fibonacci".data) (jsToLower prompt) || containsSub ("fib".data) (jsToLower prompt)) = false →
     containsSub ("factorial".data) (jsToLower prompt) = false →
     (containsSub ("reverse".data) (jsToLower prompt) && containsSub ("string".data) (jsToLower prompt)) = false →
     containsSub ("debounce".data) (jsToLower prompt) = false →
       codeTemplateFunction name prompt = notImplementedTemplate name
       ∧ containsSub ("Not implemented".data) (notImplementedTemplate name) = true) := by
  refine ⟨?_, ?_, ?_, ?_, ?_, ?_⟩
  · intro h; simp [codeTemplateFunction, h]
  · intro h1 h2; simp [codeTemplateFunction, h1, h2]
  · intro h1 h2 h3; simp [codeTemplateFunction, h1, h2, h3]
  · intro h1 h2 h3 h4 h5; simp [codeTemplateFunction, h1, h2, h3, h4, h5]
  · intro h1 h2 h3 h4 h5; simp [codeTemplateFunction, h1, h2, h3, h4, h5]
  · intro h1 h2 h3 h4 h5
    refine ⟨by simp [codeTemplateFunction, h1, h2, h3, h4, h5], ?_⟩
    have : containsSub ("Not implemented".data)
        (("(/* params */): any \x7b\n  throw new Error(\x27Not implemented\x27);\n\x7d\n".data)) = true := by
      decide
    exact containsSub_append_left _ _ _ this

/-- Claim C5 witness: the prime branch fires, a reverse prompt without the
substring `string` falls through to the stub, and the no-keyword default is
the stub. -/
theorem claim_C5_witness :
    codeTemplateFunction ("f".data) ("prime sieve".data) = primeTemplate ("f".data)
  ∧ codeTemplateFunction ("f".data) ("reverse it".data) = notImplementedTemplate ("f".data)
  ∧ codeTemplateFunction ("f".data) ("hello world".data) = notImplementedTemplate ("f".data) := by
  exact ⟨(claim_C5_template_priority ("f".data) ("prime sieve".data)).1 (by decide),
         ((claim_C5_template_priority ("f".data) ("reverse it".data)).2.2.2.2.2
           (by decide) (by decide) (by decide) (by decide) (by decide)).1,
         ((claim_C5_template_priority ("f".data) ("hello world".data)).2.2.2.2.2
           (by decide) (by decide) (by decide) (by decide) (by decide)).1⟩

/-- Claim C6 counterexample: in `["--out", "", "x "]` the token `--out` is
followed by `""`, which does not start with `--`, yet the parser does not set
the out field (the next token must also be truthy, i.e. nonempty); all three
tokens are folded into the prompt, and the claimed space-join `--out  x `
is additionally trimmed to `--out  x`. -/
theorem claim_C6_counterexample :
    (parseArgs [("--out".data), ([] : List Char), ("x ".data)]).1.out = none
  ∧ (parseArgs [("--out".data), ([] : List Char), ("x ".data)]).2 = ("--out  x".data)
  ∧ (parseArgs [("--out".data), ([] : List Char), ("x ".data)]).2
      ≠ joinSep (" ".data) [("--out".data), ([] : List Char), ("x ".data)] := by
  refine ⟨by decide, by decide, by decide⟩

/-- Claim C6 as amended: `--out` consumes the next token as the out path only
when that token is nonempty and does not start with `--`; a `--out=<value>`
token sets the path inline; every token matching no flag rule is appended to
the prompt-token list in its original order; and the prompt is the space-join
of those tokens trimmed of leading and trailing whitespace. No token is ever
rejected: `parseLoop` is total, so unknown flag-like tokens are folded into
the prompt silently. -/
theorem claim_C6_amended (f : Flags) (r tl : List (List Char)) (nxt arg v : List Char) :
    (nxt ≠ [] → ("--".data).isPrefixOf nxt = false →
       parseLoop (("--out".data) :: nxt :: tl) f r = parseLoop tl { f with out := some nxt } r)
  ∧ (parseLoop ((("--out=".data) ++ v) :: tl) f r = parseLoop tl { f with out := some v } r)
  ∧ (arg ≠ ("--ai".data) → arg ≠ ("--json".data) → arg ≠ ("--help".data) → arg ≠ ("-h".data) →
     arg ≠ ("--version".data) → arg ≠ ("-v".data) →
     (arg = ("--out".data) → outNextOk tl = false) →
     ("--out=".data).isPrefixOf arg = false →
       parseLoop (arg :: tl) f r = parseLoop tl f (r ++ [arg]))
  ∧ (∀ argv : List (List Char),
       parseArgs argv =
         ((parseLoop argv initFlags []).1,
          jsTrim (joinSep (" ".data) (parseLoop argv initFlags []).2))) := by
  refine ⟨?_, ?_, ?_, fun argv => rfl⟩
  · intro h1 h2
    have hne : nxt.isEmpty = false := by
      cases nxt with
      | nil => exact absurd rfl h1
      | cons a as => rfl
    simp only [parseLoop]
    simp [outNextOk, hne, h2]
  · cases tl with
    | nil =>
      simp only [parseLoop]
      rw [if_neg (outEqForm_ne v ("--ai".data) (by decide)),
          if_neg (outEqForm_ne v ("--json".data) (by decide)),
          if_neg (not_or.mpr ⟨outEqForm_ne v ("--help".data) (by decide),
                              outEqForm_ne v ("-h".data) (by decide)⟩),
          if_neg (not_or.mpr ⟨outEqForm_ne v ("--version".data) (by decide),
                              outEqForm_ne v ("-v".data) (by decide)⟩),
          if_neg (fun hc => outEqForm_ne v ("--out".data) (by decide) hc.1),
          if_pos (isPrefixOf_append_self ("--out=".data) v)]
      rfl
    | cons t ts =>
      simp only [parseLoop]
      rw [if_neg (outEqForm_ne v ("--ai".data) (by decide)),
          if_neg (outEqForm_ne v ("--json".data) (by decide)),
          if_neg (not_or.mpr ⟨outEqForm_ne v ("--help".data) (by decide),
                              outEqForm_ne v ("-h".data) (by decide)⟩),
          if_neg (not_or.mpr ⟨outEqForm_ne v ("--version".data) (by decide),
                              outEqForm_ne v ("-v".data) (by decide)⟩),
          if_neg (fun hc => outEqForm_ne v ("--out".data) (by decide) hc.1),
          if_pos (isPrefixOf_append_self ("--out=".data) v)]
      rfl
  · intro h1 h2 h3 h4 h5 h6 h7 h8
    cases tl with
    | nil =>
      simp only [parseLoop]
      rw [if_neg h1, if_neg h2, if_neg (not_or.mpr ⟨h3, h4⟩), if_neg (not_or.mpr ⟨h5, h6⟩),
          if_neg (fun hc => by rw [h7 hc.1] at hc; exact Bool.false_ne_true hc.2),
          if_neg (by rw [h8]; exact Bool.false_ne_true)]
    | cons t ts =>
      simp only [parseLoop]
      rw [if_neg h1, if_neg h2, if_neg (not_or.mpr ⟨h3, h4⟩), if_neg (not_or.mpr ⟨h5, h6⟩),
          if_neg (fun hc => by rw [h7 hc.1] at hc; exact Bool.false_ne_true hc.2),
          if_neg (by rw [h8]; exact Bool.false_ne_true)]

/-- Claim C6 witness: a consumed `--out x`, an inline `--out=p`, and an
unknown token folded into the prompt list. -/
theorem claim_C6_witness :
    parseLoop [("--out".data), ("x".data)] initFlags []
      = parseLoop [] { initFlags with out := some ("x".data) } []
  ∧ parseLoop [("--out=p".data)] initFlags []
      = parseLoop [] { initFlags with out := some ("p".data) } []
  ∧ parseLoop [("foo".data)] initFlags [] = parseLoop [] initFlags ([] ++ [("foo".data)]) := by
  refine ⟨(claim_C6_amended initFlags [] [] ("x".data) ("foo".data) ("p".data)).1
            (by decide) (by decide), ?_, ?_⟩
  · exact (claim_C6_amended initFlags [] [] ("x".data) ("foo".data) ("p".data)).2.1
  · exact (claim_C6_amended initFlags [] [] ("x".data) ("foo".data) ("p".data)).2.2.1
      (by decide) (by decide) (by decide) (by decide) (by decide) (by decide)
      (fun _ => rfl) (by decide)

/-- Claim C9 counterexample: in `["--out=y", "--out"]` the token `--out` is
the final token, yet the parser does set an output path, namely `y` coming
from the earlier `--out=y` token; the literal `--out` is still folded into
the prompt. -/
theorem claim_C9_counterexample :
    (parseArgs [("--out=y".data), ("--out".data)]).1.out = some ("y".data)
  ∧ (parseArgs [("--out=y".data), ("--out".data)]).1.out ≠ none
  ∧ (parseArgs [("--out=y".data), ("--out".data)]).2 = ("--out".data) := by
  refine ⟨by decide, by decide, by decide⟩

/-- Claim C9 as amended: an occurrence of `--out` that is the final token, or
that is immediately followed by a token starting with `--`, does not itself
set the output path: the scan state's flags are unchanged and the literal
token `--out` is appended to the prompt-token list (the out field may still
be set by other `--out`/`--out=` tokens of the argument list), and no error
is raised. -/
theorem claim_C9_amended (f : Flags) (r tl : List (List Char)) (nxt : List Char) :
    (parseLoop [("--out".data)] f r = (f, r ++ [("--out".data)]))
  ∧ (("--".data).isPrefixOf nxt = true →
       parseLoop (("--out".data) :: nxt :: tl) f r
         = parseLoop (nxt :: tl) f (r ++ [("--out".data)])) := by
  constructor
  · simp [parseLoop, outNextOk]
  · intro hp
    simp only [parseLoop]
    simp [outNextOk, hp]

/-- Claim C9 witness: a final `--out` and a `--out` followed by `--json`. -/
theorem claim_C9_witness :
    parseLoop [("--out".data)] initFlags [] = (initFlags, [] ++ [("--out".data)])
  ∧ parseLoop [("--out".data), ("--json".data)] initFlags []
      = parseLoop [("--json".data)] initFlags ([] ++ [("--out".data)]) := by
  exact ⟨(claim_C9_amended initFlags [] [] ("--json".data)).1,
         (claim_C9_amended initFlags [] [] ("--json".data)).2 (by decide)⟩

/-- A nonempty list is not Boolean-empty. -/
theorem isEmpty_false_of_ne (l : List Char) (h : l ≠ []) : l.isEmpty = false := by
  cases l with
  | nil => exact absurd rfl h
  | cons a as => rfl

/-- Claim C7: with the version flag set, `main` prints only the fixed version
string and stops with exit code 0, no file write, and no network request;
with the help flag set or an empty parsed prompt it prints only the usage
text and stops likewise, and its exit status is nonzero exactly when the
prompt is empty. -/
theorem claim_C7_early_exit (argv : List (List Char)) (apiKey : Option (List Char))
    (net : Option PlanAndCode) (fe : Bool) :
    ((parseArgs argv).1.version = true →
       mainRun argv apiKey net fe =
         { stdout := [versionLine], stderr := [], exitCode := 0, fileWrite := none, requests := 0 })
  ∧ ((parseArgs argv).1.version = false →
     ((parseArgs argv).1.help = true ∨ (parseArgs argv).2 = []) →
       mainRun argv apiKey net fe =
         { stdout := [helpText], stderr := [],
           exitCode := if (parseArgs argv).2 = [] then 1 else 0, fileWrite := none, requests := 0 })
  ∧ ((parseArgs argv).1.version = false →
     ((parseArgs argv).1.help = true ∨ (parseArgs argv).2 = []) →
       ((mainRun argv apiKey net fe).exitCode ≠ 0 ↔ (parseArgs argv).2 = [])) := by
  refine ⟨?_, ?_, ?_⟩
  · intro h
    simp [mainRun, mainCore, h]
  · intro h1 h2
    by_cases hp : (parseArgs argv).2 = []
    · simp [mainRun, mainCore, h1, hp]
    · have hh : (parseArgs argv).1.help = true := h2.resolve_right hp
      simp [mainRun, mainCore, h1, hh, hp, isEmpty_false_of_ne _ hp]
  · intro h1 h2
    by_cases hp : (parseArgs argv).2 = []
    · simp [mainRun, mainCore, h1, hp]
    · have hh : (parseArgs argv).1.help = true := h2.resolve_right hp
      simp [mainRun, mainCore, h1, hh, hp, isEmpty_false_of_ne _ hp]

/-- Claim C7 witness: a `-v` run, a `--help` run with a prompt, and the
empty-argument run whose exit status is nonzero. -/
theorem claim_C7_witness :
    mainRun [("-v".data)] none none false =
      { stdout := [versionLine], stderr := [], exitCode := 0, fileWrite := none, requests := 0 }
  ∧ mainRun [("--help".data), ("x".data)] none none false =
      { stdout := [helpText], stderr := [], exitCode := 0, fileWrite := none, requests := 0 }
  ∧ ((mainRun ([] : List (List Char)) none none false).exitCode ≠ 0
       ↔ (parseArgs ([] : List (List Char))).2 = []) := by
  refine ⟨(claim_C7_early_exit [("-v".data)] none none false).1 (by decide), ?_, ?_⟩
  · exact (claim_C7_early_exit [("--help".data), ("x".data)] none none false).2.1
      (by decide) (Or.inl (by decide))
  · exact (claim_C7_early_exit ([] : List (List Char)) none none false).2.2
      (by decide) (Or.inr (by decide))

/-- Claim C8: with no API key in the environment, a run with the ai flag set
is observably identical to the same run with it cleared, and no network
request is issued: the adapter returns no result immediately and the offline
path is used unconditionally and silently. -/
theorem claim_C8_no_key_equiv (flags : Flags) (prompt : List Char)
    (net : Option PlanAndCode) (fe : Bool) :
    mainCore flags prompt none net fe = mainCore { flags with ai := false } prompt none net fe
  ∧ (mainCore flags prompt none net fe).requests = 0 := by
  obtain ⟨ai, json, out, help, vers⟩ := flags
  have h0 : mainCore ⟨ai, json, out, help, vers⟩ prompt none net fe
      = mainCore ⟨false, json, out, help, vers⟩ prompt none net fe := by
    cases ai <;> rfl
  refine ⟨h0, ?_⟩
  rw [h0]
  simp only [mainCore]
  split
  · rfl
  · split
    · rfl
    · cases out with
      | none => rfl
      | some p =>
        by_cases hp : p.isEmpty = true
        · simp [hp]
        · simp [hp]
